import Mathlib

/-!
Shallow embedding of `certissue.py` (repository 0xY43/certissue).

The program is a single-file CLI tool: it validates its arguments
(test-mode flag, font existence, template-image extension, coordinates,
roster-file extension, RGB color ranges), loads a CSV roster of
first/last names, and renders one certificate (TEST mode) or one per
roster row (FULL mode), writing a PDF and a PNG per rendered entry and
then terminating the process with a success message.

Modelling conventions:
* `sys.exit(msg)` (and uncaught Python exceptions) are modelled as
  `Except.error msg`; a normal `sys.exit(success-msg)` at the end of
  `issue_certificates` is the `Except.ok` component of its result.
* Python `str.lower()` is modelled as `py_lower`, char-wise ASCII
  lowercasing (the strings the program compares are ASCII).
* `os.path.splitext` is modelled as `splitext` (POSIX separator `/`),
  following the reference algorithm: split at the last dot of the last
  path component unless all characters before it in that component are
  dots.
* PIL is abstracted: an opened image contributes only its `width` and
  `height` (`PILImage`); an `Image.save(...)` call is recorded as a
  `SaveCall` holding the file name, format, the drawn text and draw
  parameters, the keyword arguments passed to `save`, and the number of
  color channels of the saved image (3 after `convert("RGB")`, 4 for
  the RGBA composite).
* `csv.DictReader` is abstracted as the list of row dictionaries it
  yields, each an association list from column name to cell value;
  `row["..."]` is `List.lookup`, and a missing key is a `KeyError`.
* `os.listdir("fonts")` is abstracted as the `fonts_list` field of the
  environment `Env`.
-/

/-- An opened PIL image, reduced to the only data the program reads. -/
structure PILImage where
  width : Nat
  height : Nat
deriving DecidableEq, Repr

/-- One roster row: `{"first_name": ..., "last_name": ...}`. -/
structure RosterEntry where
  first_name : String
  last_name : String
deriving DecidableEq, Repr

/-- One `Image.save` call performed by `issue_certificates`:
field order is file name, format, drawn text, draw coordinate, font
path, font size, fill color (RGBA), keyword arguments passed to `save`,
and channel count of the saved image. -/
structure SaveCall where
  filename : String
  format : String
  text : String
  xy : Int × Int
  font : String
  font_size : Int
  fill : Int × Int × Int × Int
  kwargs : List (String × ℚ)
  channels : Nat
deriving DecidableEq, Repr

/-- Python `str.lower()` on ASCII strings: char-wise lowercasing. -/
def py_lower (s : String) : String :=
  String.mk (s.toList.map Char.toLower)

/-- Index of the last occurrence of `c` in `l`, if any. -/
def lastIdx : List Char → Char → Option Nat
  | [], _ => none
  | a :: as, c =>
    match lastIdx as c with
    | some i => some (i + 1)
    | none => if a = c then some 0 else none

/-- `os.path.splitext` (POSIX): split at the last `.` of the last path
component, unless every character of that component before the dot is
itself a dot (then there is no extension). -/
def splitext (p : String) : String × String :=
  let l := p.toList
  match lastIdx l '.' with
  | none => (p, "")
  | some sepIndex =>
    let filenameIndex := match lastIdx l '/' with
      | none => 0
      | some j => j + 1
    if ((l.drop filenameIndex).take (sepIndex - filenameIndex)).any (fun c => c ≠ '.') then
      (String.mk (l.take sepIndex), String.mk (l.drop sepIndex))
    else (p, "")

/-- `validate_test_mode` (certissue.py lines 52-63). -/
def validate_test_mode (test_mode : String) : Except String Bool :=
  if py_lower test_mode ≠ "on" ∧ py_lower test_mode ≠ "off" then
    Except.error "Test mode must either be ON or OFF"
  else
    Except.ok true

/-- `validate_font` (lines 66-81); `fonts_list` stands for
`os.listdir("fonts")`.  On failure the program prints the available
fonts and calls `sys.exit()`; the error value records the printed
listing. -/
def validate_font (font_name : String) (fonts_list : List String) : Except String Bool :=
  if font_name ∉ fonts_list then
    Except.error (String.intercalate "\n" ("Available fonts:" :: fonts_list))
  else
    Except.ok true

/-- `validate_image_extension` (lines 84-97).  Note the source lowers
the extension twice (`extension = ...lower()` then `extension.lower()`). -/
def validate_image_extension (certification : String) : Except String Bool :=
  let extension := py_lower (splitext certification).2
  if py_lower extension = ".png" then
    Except.ok true
  else
    Except.error "Certification is not a .PNG file"

/-- `validate_coordinates` (lines 100-119); the opened image is passed
as its width/height. -/
def validate_coordinates (x y : Int) (img : PILImage) : Except String Bool :=
  if x > (img.width : Int) ∨ x < 0 ∨ y < 0 ∨ y > (img.height : Int) then
    Except.error "Invalid (x,y) coordinates"
  else
    Except.ok true

/-- `validate_csv_extension` (lines 122-135). -/
def validate_csv_extension (csv_file : String) : Except String Bool :=
  let extension := py_lower (splitext csv_file).2
  if extension = ".csv" then
    Except.ok true
  else
    Except.error "CSV file is not a .csv file"

/-- `validate_rgb_colors` (lines 138-157). -/
def validate_rgb_colors (red green blue : Int) : Except String Bool :=
  if red > 255 ∨ red < 0 then
    Except.error "Red must have value of range [0,255]"
  else if green > 255 ∨ green < 0 then
    Except.error "Green must have value of range [0,255]"
  else if blue > 255 ∨ blue < 0 then
    Except.error "Blue must have value of range [0,255]"
  else
    Except.ok true

/-- Accumulating loop of `get_full_name` (lines 169-175): one
`names.append`/`number_of_rows += 1` per row; `row["First name"]` /
`row["Last name"]` raise `KeyError` when the column is absent. -/
def get_full_name_loop :
    List (List (String × String)) → List RosterEntry → Nat →
      Except String (List RosterEntry × Nat)
  | [], names, number_of_rows => Except.ok (names, number_of_rows)
  | row :: rest, names, number_of_rows =>
    match List.lookup "First name" row with
    | none => Except.error "KeyError: First name"
    | some f =>
      match List.lookup "Last name" row with
      | none => Except.error "KeyError: Last name"
      | some l =>
        get_full_name_loop rest (names ++ [⟨f, l⟩]) (number_of_rows + 1)

/-- `get_full_name` (lines 160-177), over the row dictionaries yielded
by `csv.DictReader`. -/
def get_full_name (rows : List (List (String × String))) :
    Except String (List RosterEntry × Nat) :=
  get_full_name_loop rows [] 0

/-- The two `save` calls of one FULL-mode iteration (lines 209-228):
the text `"{first_name} {last_name}"` is drawn at `(x, y)` with fill
`(red, green, blue, 255)` in font `fonts/{font_name}` at `font_size`;
the RGB conversion is saved as `"{name}.pdf"` with keyword
`resoultion=100.0` (sic, misspelled in the source) and the RGBA
composite as `"{name}.PNG"` with keyword `resolution=100.0`. -/
def full_entry_writes (e : RosterEntry) (x y : Int) (font_name : String)
    (font_size : Int) (red green blue : Int) : List SaveCall :=
  [⟨e.first_name ++ " " ++ e.last_name ++ ".pdf", "PDF",
    e.first_name ++ " " ++ e.last_name, (x, y), "fonts/" ++ font_name,
    font_size, (red, green, blue, 255), [("resoultion", 100)], 3⟩,
   ⟨e.first_name ++ " " ++ e.last_name ++ ".PNG", "PNG",
    e.first_name ++ " " ++ e.last_name, (x, y), "fonts/" ++ font_name,
    font_size, (red, green, blue, 255), [("resolution", 100)], 4⟩]

/-- The two `save` calls of the TEST-mode block (lines 184-204): same
rendering as a FULL iteration but with hard-coded output names
`"TEST.pdf"` (keyword `resoultion=100.0`, sic) and `"TEST.png"`
(keyword `resolution=100.0`). -/
def test_entry_writes (e : RosterEntry) (x y : Int) (font_name : String)
    (font_size : Int) (red green blue : Int) : List SaveCall :=
  [⟨"TEST.pdf", "PDF",
    e.first_name ++ " " ++ e.last_name, (x, y), "fonts/" ++ font_name,
    font_size, (red, green, blue, 255), [("resoultion", 100)], 3⟩,
   ⟨"TEST.png", "PNG",
    e.first_name ++ " " ++ e.last_name, (x, y), "fonts/" ++ font_name,
    font_size, (red, green, blue, 255), [("resolution", 100)], 4⟩]

/-- The FULL-mode loop `for i in range(number_of_rows)` (line 208),
counting up from index `i` with `k` iterations left.  Result: the save
calls performed so far, and `some err` when `names_list[i]` raised an
`IndexError` (aborting the loop), `none` when the loop completed. -/
def issue_loop (names_list : List RosterEntry) (x y : Int) (font_name : String)
    (font_size : Int) (red green blue : Int) :
    Nat → Nat → List SaveCall × Option String
  | _, 0 => ([], none)
  | i, k + 1 =>
    match names_list.get? i with
    | none => ([], some "IndexError: list index out of range")
    | some e =>
      let done := issue_loop names_list x y font_name font_size red green blue (i + 1) k
      (full_entry_writes e x y font_name font_size red green blue ++ done.1, done.2)

/-- `issue_certificates` (lines 180-230).  First component: the save
calls performed, in program order.  Second component: `Except.ok msg`
for the terminating `sys.exit(msg)` on the success paths, `Except.error`
for an uncaught exception (indexing an empty roster in TEST mode, or
running past the list in the FULL loop). -/
def issue_certificates (names_list : List RosterEntry) (number_of_rows : Nat)
    (x y : Int) (certification csv_file font_name : String) (font_size : Int)
    (mode : String) (red green blue : Int) :
    List SaveCall × Except String String :=
  if py_lower mode = "on" then
    match names_list.get? 0 with
    | none => ([], Except.error "IndexError: list index out of range")
    | some e =>
      (test_entry_writes e x y font_name font_size red green blue,
       Except.ok "TEST certificates created successfully")
  else
    match issue_loop names_list x y font_name font_size red green blue 0 number_of_rows with
    | (ws, some err) => (ws, Except.error err)
    | (ws, none) => (ws, Except.ok "Certificates created successfully")

/-- The parsed CLI arguments (lines 26-49), after `argparse` succeeded:
field order `x, y, i, fo, s, fi, t, r, g, b`. -/
structure Args where
  x : Int
  y : Int
  i : String
  fo : String
  s : Int
  fi : String
  t : String
  r : Int
  g : Int
  b : Int
deriving DecidableEq, Repr

/-- The parts of the outside world the program reads:
`os.listdir("fonts")`, the dimensions of the opened template image, and
the row dictionaries of the roster file. -/
structure Env where
  fonts_list : List String
  image : PILImage
  csv_rows : List (List (String × String))
deriving DecidableEq, Repr

/-- `main` (lines 7-19; renamed here because `main` is reserved): run
the six validators in source order, then load the roster, then issue
the certificates.  Any `sys.exit` or exception before
`issue_certificates` terminates the process with no save call
performed. -/
def certissue_main (a : Args) (env : Env) : List SaveCall × Except String String :=
  match validate_test_mode a.t with
  | Except.error e => ([], Except.error e)
  | Except.ok _ =>
    match validate_font a.fo env.fonts_list with
    | Except.error e => ([], Except.error e)
    | Except.ok _ =>
      match validate_image_extension a.i with
      | Except.error e => ([], Except.error e)
      | Except.ok _ =>
        match validate_coordinates a.x a.y env.image with
        | Except.error e => ([], Except.error e)
        | Except.ok _ =>
          match validate_csv_extension a.fi with
          | Except.error e => ([], Except.error e)
          | Except.ok _ =>
            match validate_rgb_colors a.r a.g a.b with
            | Except.error e => ([], Except.error e)
            | Except.ok _ =>
              match get_full_name env.csv_rows with
              | Except.error e => ([], Except.error e)
              | Except.ok (names_list, rows_count) =>
                issue_certificates names_list rows_count a.x a.y a.i a.fi
                  a.fo a.s a.t a.r a.g a.b

/-! ### Helper lemmas -/

theorem char_eq_of_toNat_eq {c d : Char} (h : c.toNat = d.toNat) : c = d := by
  have hc := Char.ofNat_toNat c
  rw [h, Char.ofNat_toNat] at hc
  exact hc.symm

theorem toNat_ofNat_of_lt {n : Nat} (h : n < 55296) : (Char.ofNat n).toNat = n := by
  rw [Char.ofNat, dif_pos (Or.inl h)]
  rfl

theorem toNat_toLower (c : Char) :
    (Char.toLower c).toNat =
      if 65 ≤ c.toNat ∧ c.toNat ≤ 90 then c.toNat + 32 else c.toNat := by
  unfold Char.toLower
  by_cases h : 65 ≤ c.toNat ∧ c.toNat ≤ 90
  · rw [if_pos ⟨h.1, h.2⟩, if_pos h]
    exact toNat_ofNat_of_lt (by omega)
  · rw [if_neg (by exact fun hx => h ⟨hx.1, hx.2⟩), if_neg h]

theorem char_toLower_toLower (c : Char) : c.toLower.toLower = c.toLower := by
  apply char_eq_of_toNat_eq
  rw [toNat_toLower c.toLower]
  have hm : ¬(65 ≤ c.toLower.toNat ∧ c.toLower.toNat ≤ 90) := by
    rw [toNat_toLower c]
    split_ifs with h <;> omega
  rw [if_neg hm]

theorem py_lower_py_lower (s : String) : py_lower (py_lower s) = py_lower s := by
  unfold py_lower
  have : (String.mk (s.toList.map Char.toLower)).toList = s.toList.map Char.toLower := rfl
  rw [this, List.map_map]
  congr 1
  exact List.map_congr_left (fun c _ => char_toLower_toLower c)

/-! ### Claim theorems -/

/-- C3: for a template image of width `W` and height `H`, coordinate
validation succeeds iff `0 ≤ x ≤ W` and `0 ≤ y ≤ H` (both boundaries
inclusive); any violating pair aborts with "Invalid (x,y) coordinates". -/
theorem C3_validate_coordinates_iff (x y : Int) (W H : Nat) :
    (validate_coordinates x y ⟨W, H⟩ = Except.ok true ↔
      0 ≤ x ∧ x ≤ (W : Int) ∧ 0 ≤ y ∧ y ≤ (H : Int)) ∧
    (¬(0 ≤ x ∧ x ≤ (W : Int) ∧ 0 ≤ y ∧ y ≤ (H : Int)) →
      validate_coordinates x y ⟨W, H⟩ = Except.error "Invalid (x,y) coordinates") := by
  unfold validate_coordinates
  dsimp only
  constructor
  · split_ifs with h
    · exact iff_of_false (by simp) (by omega)
    · exact iff_of_true rfl (by omega)
  · intro hn
    rw [if_pos (by omega)]

theorem C3_validate_coordinates_iff_witness :
    validate_coordinates 3 4 ⟨10, 10⟩ = Except.ok true ∧
    validate_coordinates 11 0 ⟨10, 10⟩ = Except.error "Invalid (x,y) coordinates" :=
  ⟨(C3_validate_coordinates_iff 3 4 10 10).1.mpr (by decide),
   (C3_validate_coordinates_iff 11 0 10 10).2 (by decide)⟩

/-- C4: color validation succeeds iff each of `r`, `g`, `b` lies in
`[0, 255]`; an out-of-range channel aborts with a message naming that
channel and the range, the channels being checked in order red, green,
blue. -/
theorem C4_validate_rgb_colors_iff (r g b : Int) :
    (validate_rgb_colors r g b = Except.ok true ↔
      (0 ≤ r ∧ r ≤ 255) ∧ (0 ≤ g ∧ g ≤ 255) ∧ (0 ≤ b ∧ b ≤ 255)) ∧
    (r > 255 ∨ r < 0 →
      validate_rgb_colors r g b = Except.error "Red must have value of range [0,255]") ∧
    (0 ≤ r ∧ r ≤ 255 → g > 255 ∨ g < 0 →
      validate_rgb_colors r g b = Except.error "Green must have value of range [0,255]") ∧
    (0 ≤ r ∧ r ≤ 255 → 0 ≤ g ∧ g ≤ 255 → b > 255 ∨ b < 0 →
      validate_rgb_colors r g b = Except.error "Blue must have value of range [0,255]") := by
  unfold validate_rgb_colors
  refine ⟨?_, ?_, ?_, ?_⟩
  · split_ifs with h1 h2 h3
    · exact iff_of_false (by simp) (by omega)
    · exact iff_of_false (by simp) (by omega)
    · exact iff_of_false (by simp) (by omega)
    · exact iff_of_true rfl (by omega)
  · intro h
    rw [if_pos h]
  · intro hr h
    rw [if_neg (by omega), if_pos h]
  · intro hr hg h
    rw [if_neg (by omega), if_neg (by omega), if_pos h]

theorem C4_validate_rgb_colors_iff_witness :
    validate_rgb_colors 10 20 30 = Except.ok true ∧
    validate_rgb_colors 256 0 0 = Except.error "Red must have value of range [0,255]" ∧
    validate_rgb_colors 0 (-1) 0 = Except.error "Green must have value of range [0,255]" :=
  ⟨(C4_validate_rgb_colors_iff 10 20 30).1.mpr (by decide),
   (C4_validate_rgb_colors_iff 256 0 0).2.1 (by decide),
   (C4_validate_rgb_colors_iff 0 (-1) 0).2.2.1 (by decide) (by decide)⟩

/-- C5: the template-image extension check succeeds iff the filename's
`splitext` extension, lowercased, is ".png" (so "cert.PNG", "cert.png",
"cert.Png" all pass); otherwise it aborts with
"Certification is not a .PNG file". -/
theorem C5_image_extension_case_insensitive :
    (∀ f : String,
      (validate_image_extension f = Except.ok true ↔
        py_lower (splitext f).2 = ".png") ∧
      (py_lower (splitext f).2 ≠ ".png" →
        validate_image_extension f = Except.error "Certification is not a .PNG file")) ∧
    validate_image_extension "cert.PNG" = Except.ok true ∧
    validate_image_extension "cert.png" = Except.ok true ∧
    validate_image_extension "cert.Png" = Except.ok true ∧
    validate_image_extension "cert.jpg" = Except.error "Certification is not a .PNG file" := by
  refine ⟨fun f => ?_, by rfl, by rfl, by rfl, by rfl⟩
  have key := py_lower_py_lower (splitext f).2
  simp only [validate_image_extension, key]
  split_ifs with h
  · exact ⟨by simp [h], fun hn => absurd h hn⟩
  · exact ⟨by simp [h], fun _ => rfl⟩

theorem C5_image_extension_case_insensitive_witness :
    validate_image_extension "Diploma.PnG" = Except.ok true ∧
    validate_image_extension "diploma.jpg" = Except.error "Certification is not a .PNG file" :=
  ⟨(C5_image_extension_case_insensitive.1 "Diploma.PnG").1.mpr (by decide),
   (C5_image_extension_case_insensitive.1 "diploma.jpg").2 (by decide)⟩

/-- C1: in TEST mode (mode case-insensitively "on"), for every
non-empty roster `issue_certificates` renders only the first entry,
performs exactly the two saves "TEST.pdf" and "TEST.png" with the first
entry's `"{first_name} {last_name}"` text, and exits with
"TEST certificates created successfully", independent of
`number_of_rows` and of any further entries. -/
theorem C1_test_mode_single_pair (names_list : List RosterEntry) (number_of_rows : Nat)
    (x y : Int) (certification csv_file font_name : String) (font_size : Int)
    (mode : String) (red green blue : Int)
    (hmode : py_lower mode = "on") (hne : names_list ≠ []) :
    issue_certificates names_list number_of_rows x y certification csv_file font_name
        font_size mode red green blue =
      ([⟨"TEST.pdf", "PDF",
         (names_list.head hne).first_name ++ " " ++ (names_list.head hne).last_name,
         (x, y), "fonts/" ++ font_name, font_size, (red, green, blue, 255),
         [("resoultion", 100)], 3⟩,
        ⟨"TEST.png", "PNG",
         (names_list.head hne).first_name ++ " " ++ (names_list.head hne).last_name,
         (x, y), "fonts/" ++ font_name, font_size, (red, green, blue, 255),
         [("resolution", 100)], 4⟩],
       Except.ok "TEST certificates created successfully") := by
  match names_list, hne with
  | e :: rest, _ =>
    simp [issue_certificates, hmode, test_entry_writes]

theorem C1_test_mode_single_pair_witness :
    issue_certificates [⟨"Ada", "Lovelace"⟩, ⟨"Bob", "Crypt"⟩] 2 5 7 "cert.png"
        "roster.csv" "FreeMono.ttf" 42 "On" 1 2 3 =
      ([⟨"TEST.pdf", "PDF", "Ada Lovelace", (5, 7), "fonts/FreeMono.ttf", 42,
         (1, 2, 3, 255), [("resoultion", 100)], 3⟩,
        ⟨"TEST.png", "PNG", "Ada Lovelace", (5, 7), "fonts/FreeMono.ttf", 42,
         (1, 2, 3, 255), [("resolution", 100)], 4⟩],
       Except.ok "TEST certificates created successfully") :=
  C1_test_mode_single_pair [⟨"Ada", "Lovelace"⟩, ⟨"Bob", "Crypt"⟩] 2 5 7 "cert.png"
    "roster.csv" "FreeMono.ttf" 42 "On" 1 2 3 (by rfl) (by simp)

/-- C9: in TEST mode, a non-empty roster makes the index-0 access
in-bounds and the run succeed with the TEST success exit, while the
empty roster makes that access raise an IndexError before any save. -/
theorem C9_test_mode_requires_nonempty (number_of_rows : Nat) (x y : Int)
    (certification csv_file font_name : String) (font_size : Int)
    (mode : String) (red green blue : Int) (hmode : py_lower mode = "on") :
    (∀ (names_list : List RosterEntry), names_list ≠ [] →
      (issue_certificates names_list number_of_rows x y certification csv_file
          font_name font_size mode red green blue).2 =
        Except.ok "TEST certificates created successfully") ∧
    issue_certificates [] number_of_rows x y certification csv_file font_name
        font_size mode red green blue =
      ([], Except.error "IndexError: list index out of range") := by
  constructor
  · intro names_list h
    match names_list, h with
    | e :: rest, _ => simp [issue_certificates, hmode]
  · simp [issue_certificates, hmode]

theorem C9_test_mode_requires_nonempty_witness :
    issue_certificates [] 3 0 0 "cert.png" "roster.csv" "FreeMono.ttf" 30 "ON" 0 0 0 =
      ([], Except.error "IndexError: list index out of range") :=
  (C9_test_mode_requires_nonempty 3 0 0 "cert.png" "roster.csv" "FreeMono.ttf" 30
    "ON" 0 0 0 (by rfl)).2

/-- C10: in FULL mode with an empty roster (count 0),
`issue_certificates` performs no save at all and still exits with
"Certificates created successfully". -/
theorem C10_full_mode_empty_roster (x y : Int)
    (certification csv_file font_name : String) (font_size : Int)
    (mode : String) (red green blue : Int) (hmode : py_lower mode ≠ "on") :
    issue_certificates [] 0 x y certification csv_file font_name font_size mode
        red green blue =
      ([], Except.ok "Certificates created successfully") := by
  simp [issue_certificates, hmode, issue_loop]

theorem C10_full_mode_empty_roster_witness :
    issue_certificates [] 0 0 0 "cert.png" "roster.csv" "FreeMono.ttf" 30 "OFF" 0 0 0 =
      ([], Except.ok "Certificates created successfully") :=
  C10_full_mode_empty_roster 0 0 "cert.png" "roster.csv" "FreeMono.ttf" 30 "OFF"
    0 0 0 (by decide)

/-- The FULL-mode loop, run from index `i` with all remaining indices
in bounds, performs exactly the per-entry writes of the corresponding
roster slice and completes without exception. -/
theorem issue_loop_complete (names_list : List RosterEntry) (x y : Int)
    (font_name : String) (font_size : Int) (red green blue : Int) :
    ∀ (k i : Nat), i + k ≤ names_list.length →
      issue_loop names_list x y font_name font_size red green blue i k =
        ((((names_list.drop i).take k).map
            (fun e => full_entry_writes e x y font_name font_size red green blue)).flatten,
         none) := by
  intro k
  induction k with
  | zero =>
    intro i hi
    simp [issue_loop]
  | succ n ih =>
    intro i hi
    have hlt : i < names_list.length := by omega
    have hget : names_list.get? i = some (names_list[i]) := by
      simp [List.getElem?_eq_getElem hlt]
    have hdrop : names_list.drop i = names_list[i] :: names_list.drop (i + 1) :=
      (List.getElem_cons_drop names_list i hlt).symm
    rw [issue_loop, hget]
    dsimp only
    rw [ih (i + 1) (by omega), hdrop, List.take_succ_cons, List.map_cons, List.flatten_cons]

/-- C2: in FULL mode, with count equal to the roster length,
`issue_certificates` processes the entries in order, performing per
entry exactly the save pair `"{first_name} {last_name}.pdf"` /
`"{first_name} {last_name}.PNG"` (names space-joined, case as given),
hence `2 * N` saves in total, and exits with
"Certificates created successfully". -/
theorem C2_full_mode_all_entries (names_list : List RosterEntry) (x y : Int)
    (certification csv_file font_name : String) (font_size : Int)
    (mode : String) (red green blue : Int) (hmode : py_lower mode ≠ "on") :
    issue_certificates names_list names_list.length x y certification csv_file
        font_name font_size mode red green blue =
      ((names_list.map
          (fun e => full_entry_writes e x y font_name font_size red green blue)).flatten,
       Except.ok "Certificates created successfully") ∧
    ((names_list.map
        (fun e => full_entry_writes e x y font_name font_size red green blue)).flatten).length =
      2 * names_list.length ∧
    ((names_list.map
        (fun e => full_entry_writes e x y font_name font_size red green blue)).flatten).map
        SaveCall.filename =
      (names_list.map (fun e =>
        [e.first_name ++ " " ++ e.last_name ++ ".pdf",
         e.first_name ++ " " ++ e.last_name ++ ".PNG"])).flatten := by
  refine ⟨?_, ?_, ?_⟩
  · have h := issue_loop_complete names_list x y font_name font_size red green blue
      names_list.length 0 (by omega)
    rw [List.drop_zero, List.take_length] at h
    simp [issue_certificates, hmode, h]
  · induction names_list with
    | nil => rfl
    | cons e rest ih =>
      rw [List.map_cons, List.flatten_cons, List.length_append, ih, List.length_cons]
      have h2 : (full_entry_writes e x y font_name font_size red green blue).length = 2 := rfl
      rw [h2]
      omega
  · induction names_list with
    | nil => rfl
    | cons e rest ih =>
      simp only [List.map_cons, List.flatten_cons, List.map_append, ih]
      rfl

theorem C2_full_mode_all_entries_witness :
    issue_certificates [⟨"Ada", "Lovelace"⟩, ⟨"Bob", "Crypt"⟩] 2 1 2 "cert.png"
        "roster.csv" "FreeMono.ttf" 30 "off" 9 8 7 =
      ([⟨"Ada Lovelace.pdf", "PDF", "Ada Lovelace", (1, 2), "fonts/FreeMono.ttf", 30,
         (9, 8, 7, 255), [("resoultion", 100)], 3⟩,
        ⟨"Ada Lovelace.PNG", "PNG", "Ada Lovelace", (1, 2), "fonts/FreeMono.ttf", 30,
         (9, 8, 7, 255), [("resolution", 100)], 4⟩,
        ⟨"Bob Crypt.pdf", "PDF", "Bob Crypt", (1, 2), "fonts/FreeMono.ttf", 30,
         (9, 8, 7, 255), [("resoultion", 100)], 3⟩,
        ⟨"Bob Crypt.PNG", "PNG", "Bob Crypt", (1, 2), "fonts/FreeMono.ttf", 30,
         (9, 8, 7, 255), [("resolution", 100)], 4⟩],
       Except.ok "Certificates created successfully") :=
  (C2_full_mode_all_entries [⟨"Ada", "Lovelace"⟩, ⟨"Bob", "Crypt"⟩] 1 2 "cert.png"
    "roster.csv" "FreeMono.ttf" 30 "off" 9 8 7 (by decide)).1

/-- The `RosterEntry` built from one row dictionary when both required
columns are present (used to describe `get_full_name`'s output). -/
def entry_of_row (row : List (String × String)) : RosterEntry :=
  ⟨(List.lookup "First name" row).getD "", (List.lookup "Last name" row).getD ""⟩

/-- When every row has both required columns, the `get_full_name` loop
appends one entry per row, in order, and adds one to the counter per
row. -/
theorem get_full_name_loop_complete :
    ∀ (rows : List (List (String × String))),
      (∀ row ∈ rows,
        (List.lookup "First name" row).isSome ∧ (List.lookup "Last name" row).isSome) →
      ∀ (acc : List RosterEntry) (k : Nat),
        get_full_name_loop rows acc k =
          Except.ok (acc ++ rows.map entry_of_row, k + rows.length) := by
  intro rows
  induction rows with
  | nil =>
    intro _ acc k
    simp [get_full_name_loop]
  | cons row rest ih =>
    intro h acc k
    obtain ⟨hf, hl⟩ := h row (by simp)
    obtain ⟨f, hf2⟩ := Option.isSome_iff_exists.mp hf
    obtain ⟨l, hl2⟩ := Option.isSome_iff_exists.mp hl
    rw [get_full_name_loop, hf2, hl2]
    dsimp only
    rw [ih (fun r hr => h r (List.mem_cons_of_mem row hr)) (acc ++ [RosterEntry.mk f l]) (k + 1)]
    have he : entry_of_row row = ⟨f, l⟩ := by
      unfold entry_of_row
      rw [hf2, hl2]
      rfl
    rw [List.map_cons, he, List.append_cons, List.length_cons]
    have hk : k + 1 + rest.length = k + (rest.length + 1) := by omega
    rw [hk]
    simp

/-- C6: for roster rows that all contain the columns "First name" and
"Last name", `get_full_name` returns the entries in file order, one per
data row, holding each row's first and last name, with a count equal to
both the sequence length and the number of rows. -/
theorem C6_get_full_name_count (rows : List (List (String × String)))
    (h : ∀ row ∈ rows,
      (List.lookup "First name" row).isSome ∧ (List.lookup "Last name" row).isSome) :
    get_full_name rows = Except.ok (rows.map entry_of_row, rows.length) ∧
    (rows.map entry_of_row).length = rows.length ∧
    (∀ (i : Nat) (row : List (String × String)) (f l : String),
      rows.get? i = some row →
      List.lookup "First name" row = some f →
      List.lookup "Last name" row = some l →
      (rows.map entry_of_row).get? i = some ⟨f, l⟩) := by
  refine ⟨?_, List.length_map rows entry_of_row, ?_⟩
  · have := get_full_name_loop_complete rows h [] 0
    simpa [get_full_name] using this
  · intro i row f l hi hf hl
    rw [List.get?_eq_getElem?] at hi ⊢
    rw [List.getElem?_map, hi]
    have he : entry_of_row row = ⟨f, l⟩ := by
      unfold entry_of_row
      rw [hf, hl]
      rfl
    simp [he]

theorem C6_get_full_name_count_witness :
    get_full_name [[("First name", "Ada"), ("Last name", "Lovelace")],
                   [("First name", "Bob"), ("Last name", "Crypt")]] =
      Except.ok ([⟨"Ada", "Lovelace"⟩, ⟨"Bob", "Crypt"⟩], 2) :=
  (C6_get_full_name_count
    [[("First name", "Ada"), ("Last name", "Lovelace")],
     [("First name", "Bob"), ("Last name", "Crypt")]] (by decide)).1

/-- C7: the six validation checks run in the fixed order mode, font,
image extension, coordinates, CSV extension, colors, before any
rendering; the first failing check terminates the process with that
check's message and with zero save calls performed, and rendering is
reached only after all six checks (and the roster load) succeeded. -/
theorem C7_validation_order_before_writes (a : Args) (env : Env) :
    (∀ e, validate_test_mode a.t = Except.error e →
      certissue_main a env = ([], Except.error e)) ∧
    (∀ e, validate_test_mode a.t = Except.ok true →
      validate_font a.fo env.fonts_list = Except.error e →
      certissue_main a env = ([], Except.error e)) ∧
    (∀ e, validate_test_mode a.t = Except.ok true →
      validate_font a.fo env.fonts_list = Except.ok true →
      validate_image_extension a.i = Except.error e →
      certissue_main a env = ([], Except.error e)) ∧
    (∀ e, validate_test_mode a.t = Except.ok true →
      validate_font a.fo env.fonts_list = Except.ok true →
      validate_image_extension a.i = Except.ok true →
      validate_coordinates a.x a.y env.image = Except.error e →
      certissue_main a env = ([], Except.error e)) ∧
    (∀ e, validate_test_mode a.t = Except.ok true →
      validate_font a.fo env.fonts_list = Except.ok true →
      validate_image_extension a.i = Except.ok true →
      validate_coordinates a.x a.y env.image = Except.ok true →
      validate_csv_extension a.fi = Except.error e →
      certissue_main a env = ([], Except.error e)) ∧
    (∀ e, validate_test_mode a.t = Except.ok true →
      validate_font a.fo env.fonts_list = Except.ok true →
      validate_image_extension a.i = Except.ok true →
      validate_coordinates a.x a.y env.image = Except.ok true →
      validate_csv_extension a.fi = Except.ok true →
      validate_rgb_colors a.r a.g a.b = Except.error e →
      certissue_main a env = ([], Except.error e)) ∧
    (∀ (names_list : List RosterEntry) (rows_count : Nat),
      validate_test_mode a.t = Except.ok true →
      validate_font a.fo env.fonts_list = Except.ok true →
      validate_image_extension a.i = Except.ok true →
      validate_coordinates a.x a.y env.image = Except.ok true →
      validate_csv_extension a.fi = Except.ok true →
      validate_rgb_colors a.r a.g a.b = Except.ok true →
      get_full_name env.csv_rows = Except.ok (names_list, rows_count) →
      certissue_main a env =
        issue_certificates names_list rows_count a.x a.y a.i a.fi a.fo a.s a.t
          a.r a.g a.b) := by
  refine ⟨?_, ?_, ?_, ?_, ?_, ?_, ?_⟩
  · intro e h1
    simp only [certissue_main, h1]
  · intro e h1 h2
    simp only [certissue_main, h1, h2]
  · intro e h1 h2 h3
    simp only [certissue_main, h1, h2, h3]
  · intro e h1 h2 h3 h4
    simp only [certissue_main, h1, h2, h3, h4]
  · intro e h1 h2 h3 h4 h5
    simp only [certissue_main, h1, h2, h3, h4, h5]
  · intro e h1 h2 h3 h4 h5 h6
    simp only [certissue_main, h1, h2, h3, h4, h5, h6]
  · intro names_list rows_count h1 h2 h3 h4 h5 h6 h7
    simp only [certissue_main, h1, h2, h3, h4, h5, h6, h7]

theorem C7_validation_order_before_writes_witness :
    certissue_main ⟨0, 0, "cert.png", "FreeMono.ttf", 30, "roster.csv", "maybe", 0, 0, 0⟩
        ⟨["FreeMono.ttf"], ⟨10, 10⟩, []⟩ =
      ([], Except.error "Test mode must either be ON or OFF") :=
  (C7_validation_order_before_writes
    ⟨0, 0, "cert.png", "FreeMono.ttf", 30, "roster.csv", "maybe", 0, 0, 0⟩
    ⟨["FreeMono.ttf"], ⟨10, 10⟩, []⟩).1
    "Test mode must either be ON or OFF" (by rfl)

/-- C8: the claim that both artifacts carry a resolution parameter of
100.0 fails on the PDF save: the source passes the misspelled keyword
`resoultion=100.0` there (so no `resolution` parameter reaches the PDF
writer), while the PNG save does pass `resolution=100.0`.  Evaluated
here on a rendered entry. -/
theorem C8_pdf_resolution_keyword_typo :
    (issue_certificates [⟨"Ada", "Lovelace"⟩] 1 10 20 "cert.png" "roster.csv"
        "FreeMono.ttf" 30 "ON" 0 0 0).1.map (fun w => (w.format, w.kwargs)) =
      [("PDF", [("resoultion", 100)]), ("PNG", [("resolution", 100)])] := by
  rfl
